import Mathlib

/-!
Verification of the Chrome-API interception layer in
`src/common/chrome/proxy.ts` (functions `setChromeProxy`, `getChromeProxy`,
the module-level variable `ChromeProxy`, and the module-bottom class
`MyChromeProxy` plus its registration call).

The TypeScript code is shallowly embedded as follows.

* A JavaScript property key is either a string name or a symbol; symbols are
  identified by a numeric id (`PropKey`).
* A JavaScript runtime value (`JSValue`) is one of `undefined`, `null`, a
  boolean, a number, a string, a callable, or a plain object.  Callables are
  opaque and carry a numeric id, so reference identity of callables in the
  source corresponds to equality of ids in the model.  Plain property access
  on a real value is `getField` (absent properties yield `undefined`, as in
  JavaScript).
* The override argument `chromeProxy` passed to `setChromeProxy` is read only
  through string-keyed property lookups `chromeProxy[mockMethodName]`, so it
  is modelled as an association list `OverrideTable` from strings to values;
  `findOverride` is that property lookup (missing key gives `undefined`).
* A value observable through the proxy layer (`PValue`) is either a real
  JavaScript value (`real`), the root `Proxy` object built by
  `setChromeProxy` (`rootProxy`, carrying the override object captured by the
  handler closure), or the nested `Proxy` built for the `tabs` / `windows`
  namespaces (`nsProxy`, carrying the same captured override object and the
  namespace name).  The roots carry their table because the `get` handler in
  the source closes over the `chromeProxy` argument of the `setChromeProxy`
  call that created them.
* One property read is `pGet`; reading along a chain of properties is
  `accessChain`.  Invoking a retrieved value with one argument is `invoke`,
  which produces the call event (callee id and argument) or nothing when the
  value is not callable.
* The module-level variable `ChromeProxy` starts as the real `chrome` object
  and is replaced by `setChromeProxy`; `getChromeProxy` returns its current
  value.  At module load the source itself executes
  `setChromeProxy(MyChromeProxy)` where `MyChromeProxy` exposes a static
  `windows_create` method.
-/

/-- A JavaScript property key: a string name, or a symbol identified by a
numeric id. -/
inductive PropKey where
  | str (s : String)
  | sym (id : Nat)
deriving DecidableEq, Repr

/-- A JavaScript runtime value.  Callables are opaque, identified by a
numeric id: two callables are the same reference exactly when their ids are
equal.  Objects are finite maps from property keys to values. -/
inductive JSValue where
  | undefined
  | nullv
  | boolv (b : Bool)
  | numv (n : Int)
  | strv (s : String)
  | func (id : Nat)
  | obj (fields : List (PropKey × JSValue))

/-- JavaScript truthiness of a value: `undefined`, `null`, `false`, `0` and
`""` are falsy; every function and object is truthy. -/
def truthy : JSValue → Bool
  | .undefined => false
  | .nullv => false
  | .boolv b => b
  | .numv n => n ≠ 0
  | .strv s => s ≠ ""
  | .func _ => true
  | .obj _ => true

/-- Look a key up in an object's field list; a missing key yields
`undefined`, as plain JavaScript property access does. -/
def findField : List (PropKey × JSValue) → PropKey → JSValue
  | [], _ => .undefined
  | (k, v) :: rest, key => if k = key then v else findField rest key

/-- Plain JavaScript property access `v[key]` on a real (non-proxy) value:
field lookup on objects, `undefined` on everything else (the model does not
track prototype properties of primitives and functions). -/
def getField : JSValue → PropKey → JSValue
  | .obj fields, key => findField fields key
  | _, _ => .undefined

/-- The override argument of `setChromeProxy`, read only via string-keyed
property access: an association list from flattened method names to
substitute values. -/
def OverrideTable : Type := List (String × JSValue)

/-- The property read `chromeProxy[mockMethodName]` performed by the nested
handler: first binding of the name, `undefined` when absent. -/
def findOverride : OverrideTable → String → JSValue
  | ([] : List (String × JSValue)), _ => .undefined
  | ((k, v) :: rest : List (String × JSValue)), key =>
      if k = key then v else findOverride rest key

/-- A value observable through the interception layer: a real JavaScript
value, the root proxy produced by `setChromeProxy` (its handler closes over
the override object, so the root carries that table), or the nested proxy
produced for a namespace property (same captured table, plus the namespace
name `prop` captured by the nested handler). -/
inductive PValue where
  | real (v : JSValue)
  | rootProxy (t : OverrideTable)
  | nsProxy (t : OverrideTable) (ns : String)

/-- One property read through the layer, following the two `get` handlers in
`setChromeProxy` line by line:

* on a real value: plain property access;
* on the root proxy: a string key equal to `"tabs"` or `"windows"` yields the
  nested proxy `new Proxy(target[prop], ...)` for that namespace; every other
  key (string or symbol) falls through to `return target[prop as string]`,
  a plain read of the real `chrome` object at that key;
* on a nested proxy: a string key `method` builds the flattened name
  `` `${prop}_${method}` ``, looks it up in the captured override object, and
  returns the substitute if that value is truthy, else the real method
  `targetProp[method]`; a non-string key returns `undefined`. -/
def pGet (chrome : JSValue) : PValue → PropKey → PValue
  | .real v, key => .real (getField v key)
  | .rootProxy t, .str p =>
      if p = "tabs" ∨ p = "windows" then .nsProxy t p
      else .real (getField chrome (.str p))
  | .rootProxy _, .sym sid => .real (getField chrome (.sym sid))
  | .nsProxy t ns, .str m =>
      if truthy (findOverride t (ns ++ "_" ++ m)) then
        .real (findOverride t (ns ++ "_" ++ m))
      else .real (getField (getField chrome (.str ns)) (.str m))
  | .nsProxy _ _, .sym _ => .real .undefined

/-- Reading along a chain of property keys, left to right, starting from a
given value. -/
def accessChain (chrome : JSValue) (start : PValue) (path : List PropKey) : PValue :=
  path.foldl (pGet chrome) start

/-- A call event: which callable was invoked (by id) and with which
argument. -/
structure CallEvent where
  fn : Nat
  arg : JSValue

/-- Invoking a retrieved value with one argument: produces the call event
when the value is a real callable, nothing otherwise. -/
def invoke : PValue → JSValue → Option CallEvent
  | .real (.func id), a => some ⟨id, a⟩
  | _, _ => none

/-- The initial value of the module-level variable `ChromeProxy`
(line `let ChromeProxy: any = chrome;`): the real `chrome` object itself. -/
def ChromeProxy (chrome : JSValue) : PValue := .real chrome

/-- `setChromeProxy(chromeProxy)`: the new value stored into the module
variable, a fresh root proxy whose handler closes over the argument. -/
def setChromeProxy (t : OverrideTable) : PValue := .rootProxy t

/-- `getChromeProxy()`: returns the current value of the module variable. -/
def getChromeProxy (s : PValue) : PValue := s

/-- The id of the static method `MyChromeProxy.windows_create` defined at the
bottom of the module (a function that logs a debug message and then calls the
real `chrome.windows.create`; as a value it is a callable distinct from the
real `chrome.windows.create`). -/
def myWindowsCreateId : Nat := 1000

/-- The `MyChromeProxy` class at the bottom of the module, seen as an
override object: it exposes exactly one flattened method,
`windows_create`. -/
def MyChromeProxy : OverrideTable := [("windows_create", .func myWindowsCreateId)]

/-- The value of the module variable `ChromeProxy` once the module has
finished loading: the last top-level statement of the source is
`setChromeProxy(MyChromeProxy);`. -/
def moduleLoadedChromeProxy : PValue := setChromeProxy MyChromeProxy

/-- A concrete model of the real `chrome` object used for concrete scenarios:
`tabs.get` is callable `1`, `tabs.query` is callable `2`, `windows.create`
is callable `3`, `windows.update` is callable `4`, a symbol-keyed property
holds callable `5`, and `runtime.id` is a string. -/
def testChrome : JSValue :=
  .obj
    [ (.str "tabs", .obj [(.str "get", .func 1), (.str "query", .func 2)]),
      (.str "windows", .obj [(.str "create", .func 3), (.str "update", .func 4)]),
      (.str "runtime", .obj [(.str "id", .strv "ext")]),
      (.sym 0, .func 5) ]

/-- A concrete host object with a four-level nested chain `a.b.c.d` whose
leaf is callable `40`, used to exercise deep access paths. -/
def testChromeDeep : JSValue :=
  .obj
    [ (.str "a",
        .obj
          [ (.str "b",
              .obj
                [ (.str "c",
                    .obj [(.str "d", .func 40)]) ]) ]),
      (.str "tabs", .obj [(.str "get", .func 1)]),
      (.str "windows", .obj [(.str "create", .func 3)]) ]

/-- The substitute callable `mockCreate` of the concrete scenarios. -/
def mockCreate : JSValue := .func 100

/-- The override object `{ windows_create: mockCreate }` of the concrete
scenarios. -/
def mockTable : OverrideTable := [("windows_create", mockCreate)]

/-- A four-segment override key `a_b_c_d`, registered with substitute
callable `41`. -/
def deepTable : OverrideTable := [("a_b_c_d", .func 41)]

/-- Reading a namespace property on the root proxy yields the nested proxy
for that namespace. -/
theorem rootProxy_namespace (chrome : JSValue) (t : OverrideTable) (ns : String)
    (hns : ns = "tabs" ∨ ns = "windows") :
    pGet chrome (.rootProxy t) (.str ns) = .nsProxy t ns := by
  rcases hns with rfl | rfl <;> rfl

/-- Reading a method on a nested proxy when the flattened key has a truthy
entry yields that entry. -/
theorem nsProxy_hit (chrome : JSValue) (t : OverrideTable) (ns m : String)
    (f : JSValue) (hf : findOverride t (ns ++ "_" ++ m) = f)
    (ht : truthy f = true) :
    pGet chrome (.nsProxy t ns) (.str m) = .real f := by
  show (if truthy (findOverride t (ns ++ "_" ++ m)) then
          PValue.real (findOverride t (ns ++ "_" ++ m))
        else .real (getField (getField chrome (.str ns)) (.str m))) = .real f
  rw [hf, if_pos ht]

/-- Reading a method on a nested proxy when the flattened key's entry is
falsy (in particular, absent) yields the real method. -/
theorem nsProxy_miss (chrome : JSValue) (t : OverrideTable) (ns m : String)
    (hmiss : truthy (findOverride t (ns ++ "_" ++ m)) = false) :
    pGet chrome (.nsProxy t ns) (.str m)
      = .real (getField (getField chrome (.str ns)) (.str m)) := by
  show (if truthy (findOverride t (ns ++ "_" ++ m)) then
          PValue.real (findOverride t (ns ++ "_" ++ m))
        else .real (getField (getField chrome (.str ns)) (.str m)))
      = .real (getField (getField chrome (.str ns)) (.str m))
  rw [if_neg]
  rw [hmiss]
  exact Bool.false_ne_true

/-- Claim C1 (amended): interception is hardcoded to the two namespaces
`tabs` and `windows` at exactly two proxy levels.  A key of the form
`ns_rest` with `ns` one of those namespaces and a truthy substitute
intercepts the two-level chain `root.ns.rest`; a four-segment key `a_b_c_d`
whose first segment is neither `tabs` nor `windows` intercepts nothing: the
four-level chain `a.b.c.d` delegates to the real leaf, the prefix chain
`a.b.c` yields the real namespace object, and the extension chain
`a.b.c.d.e` yields `undefined`. -/
theorem C1_interception_hardcoded_two_levels
    (chrome : JSValue) (t : OverrideTable) (ns rest : String) (f : JSValue)
    (hns : ns = "tabs" ∨ ns = "windows")
    (hf : findOverride t (ns ++ "_" ++ rest) = f)
    (ht : truthy f = true) :
    accessChain chrome (getChromeProxy (setChromeProxy t)) [.str ns, .str rest] = .real f
    ∧ accessChain testChromeDeep (getChromeProxy (setChromeProxy deepTable))
        [.str "a", .str "b", .str "c", .str "d"] = .real (.func 40)
    ∧ accessChain testChromeDeep (getChromeProxy (setChromeProxy deepTable))
        [.str "a", .str "b", .str "c"] = .real (.obj [(.str "d", .func 40)])
    ∧ accessChain testChromeDeep (getChromeProxy (setChromeProxy deepTable))
        [.str "a", .str "b", .str "c", .str "d", .str "e"] = .real .undefined := by
  refine ⟨?_, rfl, rfl, rfl⟩
  show pGet chrome (pGet chrome (.rootProxy t) (.str ns)) (.str rest) = .real f
  rw [rootProxy_namespace chrome t ns hns, nsProxy_hit chrome t ns rest f hf ht]

/-- Witness for C1: the key `windows_create` with the truthy substitute
`mockCreate` intercepts exactly the chain `root.windows.create`. -/
theorem C1_interception_hardcoded_two_levels_witness :
    accessChain testChrome (getChromeProxy (setChromeProxy mockTable))
      [.str "windows", .str "create"] = .real mockCreate :=
  (C1_interception_hardcoded_two_levels testChrome mockTable "windows" "create"
      mockCreate (Or.inr rfl) rfl rfl).1

/-- Counterexample to C1 as stated: the registered four-segment key
`a_b_c_d` (substitute: callable `41`) does not intercept the four-level
chain `a.b.c.d`; the chain yields the real leaf, callable `40`. -/
theorem C1_deep_key_not_intercepted :
    findOverride deepTable "a_b_c_d" = .func 41
    ∧ accessChain testChromeDeep (getChromeProxy (setChromeProxy deepTable))
        [.str "a", .str "b", .str "c", .str "d"] = .real (.func 40)
    ∧ PValue.real (.func 40) ≠ .real (.func 41) := by
  refine ⟨rfl, rfl, ?_⟩
  simp

/-- Claim C2 (amended): identity preservation holds exactly for keys of the
supported shape: for a key `ns_rest` with `ns` equal to `tabs` or `windows`
and a truthy registered value `f`, reading `root.ns.rest` returns exactly
`f`, the registered value itself.  (The path implied by a key splits it at
the first underscore only, so `rest` may itself contain underscores.) -/
theorem C2_identity_preserved_for_supported_keys
    (chrome : JSValue) (t : OverrideTable) (ns rest : String) (f : JSValue)
    (hns : ns = "tabs" ∨ ns = "windows")
    (hf : findOverride t (ns ++ "_" ++ rest) = f)
    (ht : truthy f = true) :
    accessChain chrome (getChromeProxy (setChromeProxy t)) [.str ns, .str rest]
      = .real f := by
  show pGet chrome (pGet chrome (.rootProxy t) (.str ns)) (.str rest) = .real f
  rw [rootProxy_namespace chrome t ns hns, nsProxy_hit chrome t ns rest f hf ht]

/-- Witness for C2: reading `root.tabs.get` with `{ tabs_get: f }` registered
returns exactly `f` (callable `200`). -/
theorem C2_identity_preserved_for_supported_keys_witness :
    accessChain testChrome (getChromeProxy (setChromeProxy [("tabs_get", .func 200)]))
      [.str "tabs", .str "get"] = .real (.func 200) :=
  C2_identity_preserved_for_supported_keys testChrome [("tabs_get", .func 200)]
    "tabs" "get" (.func 200) (Or.inl rfl) rfl rfl

/-- Counterexample to C2 as stated: the key `a_b` is present with the
callable substitute `50`, but reading the root along the implied path `a.b`
yields the real nested object, not the substitute. -/
theorem C2_unsupported_key_not_returned :
    findOverride [("a_b", .func 50)] "a_b" = .func 50
    ∧ accessChain testChromeDeep (getChromeProxy (setChromeProxy [("a_b", .func 50)]))
        [.str "a", .str "b"]
        = .real (.obj [(.str "c", .obj [(.str "d", .func 40)])])
    ∧ PValue.real (.obj [(.str "c", .obj [(.str "d", .func 40)])]) ≠ .real (.func 50) := by
  refine ⟨rfl, rfl, ?_⟩
  simp

/-- Claim C3 (confirmed): with `{ windows_create: mockCreate }` registered,
calling `root.windows.create(data)` invokes `mockCreate` (callable `100`)
with `data` — not the real `windows.create` (callable `3`) — and calling
`root.tabs.get(5)` invokes the real `tabs.get` (callable `1`) with `5`. -/
theorem C3_mock_windows_create_real_tabs_get (data : JSValue) :
    invoke (accessChain testChrome (getChromeProxy (setChromeProxy mockTable))
        [.str "windows", .str "create"]) data = some ⟨100, data⟩
    ∧ getField (getField testChrome (.str "windows")) (.str "create") = .func 3
    ∧ mockCreate ≠ .func 3
    ∧ invoke (accessChain testChrome (getChromeProxy (setChromeProxy mockTable))
        [.str "tabs", .str "get"]) (.numv 5) = some ⟨1, .numv 5⟩ := by
  refine ⟨rfl, rfl, ?_, rfl⟩
  simp [mockCreate]

/-- Claim C4 (amended): verbatim delegation holds for leaf accesses — a
top-level property other than `tabs`/`windows` (string or symbol key), and a
method under `tabs`/`windows` whose flattened key has no truthy entry, are
returned reference-identical to the real API's value.  But reading the
namespace properties `tabs`/`windows` themselves yields a fresh proxy
wrapper, not the real namespace object. -/
theorem C4_delegation_at_leaves_wrapper_at_namespaces
    (chrome : JSValue) (t : OverrideTable) (p ns m : String) (sid : Nat)
    (hp : p ≠ "tabs" ∧ p ≠ "windows")
    (hns : ns = "tabs" ∨ ns = "windows")
    (hmiss : truthy (findOverride t (ns ++ "_" ++ m)) = false) :
    accessChain chrome (getChromeProxy (setChromeProxy t)) [.str p]
      = .real (getField chrome (.str p))
    ∧ accessChain chrome (getChromeProxy (setChromeProxy t)) [.sym sid]
      = .real (getField chrome (.sym sid))
    ∧ accessChain chrome (getChromeProxy (setChromeProxy t)) [.str ns, .str m]
      = .real (getField (getField chrome (.str ns)) (.str m))
    ∧ accessChain chrome (getChromeProxy (setChromeProxy t)) [.str ns]
      = .nsProxy t ns := by
  have hcond : ¬(p = "tabs" ∨ p = "windows") := by
    rintro (h | h)
    exacts [hp.1 h, hp.2 h]
  refine ⟨?_, rfl, ?_, rootProxy_namespace chrome t ns hns⟩
  · show (if p = "tabs" ∨ p = "windows" then PValue.nsProxy t p
          else .real (getField chrome (.str p))) = .real (getField chrome (.str p))
    rw [if_neg hcond]
  · show pGet chrome (pGet chrome (.rootProxy t) (.str ns)) (.str m)
        = .real (getField (getField chrome (.str ns)) (.str m))
    rw [rootProxy_namespace chrome t ns hns, nsProxy_miss chrome t ns m hmiss]

/-- Witness for C4: with `{ windows_create: mockCreate }` registered,
`root.runtime` and a symbol-keyed top-level read delegate verbatim,
`root.tabs.query` returns the real method, and `root.tabs` is the nested
wrapper. -/
theorem C4_delegation_at_leaves_wrapper_at_namespaces_witness :
    accessChain testChrome (getChromeProxy (setChromeProxy mockTable)) [.str "runtime"]
      = .real (getField testChrome (.str "runtime"))
    ∧ accessChain testChrome (getChromeProxy (setChromeProxy mockTable)) [.sym 7]
      = .real (getField testChrome (.sym 7))
    ∧ accessChain testChrome (getChromeProxy (setChromeProxy mockTable))
        [.str "tabs", .str "query"]
      = .real (getField (getField testChrome (.str "tabs")) (.str "query"))
    ∧ accessChain testChrome (getChromeProxy (setChromeProxy mockTable)) [.str "tabs"]
      = .nsProxy mockTable "tabs" :=
  C4_delegation_at_leaves_wrapper_at_namespaces testChrome mockTable
    "runtime" "tabs" "query" 7 ⟨by decide, by decide⟩ (Or.inl rfl) rfl

/-- Counterexample to C4 as stated: with the empty table registered, the
access path `tabs` has flattened key `tabs`, which is absent from the table,
yet the value returned is the fresh nested wrapper, not the real
`chrome.tabs` object. -/
theorem C4_namespace_access_not_reference_identical :
    findOverride [] "tabs" = .undefined
    ∧ accessChain testChrome (getChromeProxy (setChromeProxy [])) [.str "tabs"]
        = .nsProxy [] "tabs"
    ∧ PValue.nsProxy [] "tabs" ≠ .real (getField testChrome (.str "tabs")) := by
  refine ⟨rfl, rfl, ?_⟩
  simp

/-- Claim C5 (amended): a proxy root captures the override object passed to
the `setChromeProxy` call that created it; a root created from table `t1`
keeps returning `t1`'s substitutes regardless of any later registration, and
the new table `t2` is consulted only through a root obtained from
`getChromeProxy` after the later registration. -/
theorem C5_root_captures_table_at_creation
    (chrome : JSValue) (t1 t2 : OverrideTable) (ns m : String) (f : JSValue)
    (hns : ns = "tabs" ∨ ns = "windows")
    (hf : findOverride t1 (ns ++ "_" ++ m) = f)
    (ht : truthy f = true)
    (hnew : truthy (findOverride t2 (ns ++ "_" ++ m)) = false) :
    accessChain chrome (getChromeProxy (setChromeProxy t1)) [.str ns, .str m]
      = .real f
    ∧ accessChain chrome (getChromeProxy (setChromeProxy t2)) [.str ns, .str m]
      = .real (getField (getField chrome (.str ns)) (.str m)) := by
  constructor
  · show pGet chrome (pGet chrome (.rootProxy t1) (.str ns)) (.str m) = .real f
    rw [rootProxy_namespace chrome t1 ns hns, nsProxy_hit chrome t1 ns m f hf ht]
  · show pGet chrome (pGet chrome (.rootProxy t2) (.str ns)) (.str m)
        = .real (getField (getField chrome (.str ns)) (.str m))
    rw [rootProxy_namespace chrome t2 ns hns, nsProxy_miss chrome t2 ns m hnew]

/-- Witness for C5: a root created from `{ windows_create: mockCreate }`
returns the mock at `windows.create`, while a root created from the empty
table delegates that access to the real method. -/
theorem C5_root_captures_table_at_creation_witness :
    accessChain testChrome (getChromeProxy (setChromeProxy mockTable))
      [.str "windows", .str "create"] = .real mockCreate
    ∧ accessChain testChrome (getChromeProxy (setChromeProxy []))
        [.str "windows", .str "create"]
      = .real (getField (getField testChrome (.str "windows")) (.str "create")) :=
  C5_root_captures_table_at_creation testChrome mockTable [] "windows" "create"
    mockCreate (Or.inr rfl) rfl rfl rfl

/-- Counterexample to C5 as stated: after a second registration with the
empty table, the root obtained from the first registration (whose handler
closed over `mockTable`) still returns the old substitute, callable `100`,
at `windows.create` — not the delegation to the real callable `3` that the
current (empty) table prescribes. -/
theorem C5_old_root_ignores_new_table :
    accessChain testChrome (getChromeProxy (setChromeProxy mockTable))
      [.str "windows", .str "create"] = .real (.func 100)
    ∧ accessChain testChrome (getChromeProxy (setChromeProxy []))
        [.str "windows", .str "create"] = .real (.func 3)
    ∧ PValue.real (.func 100) ≠ .real (.func 3) := by
  refine ⟨rfl, rfl, ?_⟩
  simp

/-- Claim C6 (confirmed): registration replaces the whole override table.
If a key `ns_m` was present with a truthy substitute in table `t1` but has
no truthy entry in table `t2`, then after registering `t2` the root obtained
from `getChromeProxy` delegates `root.ns.m` to the real method — the old
table's entry no longer intercepts. -/
theorem C6_registration_replaces_table
    (chrome : JSValue) (t1 t2 : OverrideTable) (ns m : String)
    (hns : ns = "tabs" ∨ ns = "windows")
    (hold : truthy (findOverride t1 (ns ++ "_" ++ m)) = true)
    (hnew : truthy (findOverride t2 (ns ++ "_" ++ m)) = false) :
    accessChain chrome (getChromeProxy (setChromeProxy t2)) [.str ns, .str m]
      = .real (getField (getField chrome (.str ns)) (.str m)) := by
  show pGet chrome (pGet chrome (.rootProxy t2) (.str ns)) (.str m)
      = .real (getField (getField chrome (.str ns)) (.str m))
  rw [rootProxy_namespace chrome t2 ns hns, nsProxy_miss chrome t2 ns m hnew]

/-- Witness for C6: `windows_create` is present in the first table
(`mockTable`) and absent from the second (empty) table; after the second
registration, `root.windows.create` is the real callable `3`. -/
theorem C6_registration_replaces_table_witness :
    accessChain testChrome (getChromeProxy (setChromeProxy []))
      [.str "windows", .str "create"]
      = .real (getField (getField testChrome (.str "windows")) (.str "create")) :=
  C6_registration_replaces_table testChrome mockTable [] "windows" "create"
    (Or.inr rfl) rfl rfl

/-- Claim C7 (amended): a non-string (symbol) key read on a nested
(`tabs`/`windows`) proxy resolves to `undefined` — an absent value — and
never throws; but a non-string key read on the root proxy is delegated to
the real object's value at that key (which may be present), and the code
emits no diagnostic warning in either case. -/
theorem C7_symbol_key_handling
    (chrome : JSValue) (t : OverrideTable) (ns : String) (sid : Nat) :
    pGet chrome (.nsProxy t ns) (.sym sid) = .real .undefined
    ∧ pGet chrome (.rootProxy t) (.sym sid) = .real (getField chrome (.sym sid)) :=
  ⟨rfl, rfl⟩

/-- Counterexample to C7 as stated: `testChrome` carries a symbol-keyed
top-level property holding callable `5`; reading the root proxy with that
symbol key returns that real present value, not an absent one (and no
warning is modelled anywhere, because the source emits none). -/
theorem C7_root_symbol_access_returns_real_value :
    accessChain testChrome (getChromeProxy (setChromeProxy [])) [.sym 0]
      = .real (.func 5)
    ∧ PValue.real (.func 5) ≠ .real .undefined := by
  refine ⟨rfl, ?_⟩
  simp

/-- Claim C8: the intended startup state (line 2 of the module,
`ChromeProxy = chrome`) delegates `windows.create` to the real callable `3`;
but the module's last top-level statement `setChromeProxy(MyChromeProxy)`
runs at load time, so before any consumer registers anything the root
already returns `MyChromeProxy.windows_create` (callable `1000`) instead of
the real method — the override table is not empty at startup and delegation
is not unchanged. -/
theorem C8_module_load_registers_windows_create :
    accessChain testChrome (ChromeProxy testChrome) [.str "windows", .str "create"]
      = .real (.func 3)
    ∧ findOverride MyChromeProxy "windows_create" = .func myWindowsCreateId
    ∧ accessChain testChrome (getChromeProxy moduleLoadedChromeProxy)
        [.str "windows", .str "create"] = .real (.func myWindowsCreateId)
    ∧ JSValue.func myWindowsCreateId ≠ .func 3 := by
  refine ⟨rfl, rfl, rfl, ?_⟩
  simp [myWindowsCreateId]

/-- Claim C9 (confirmed): registering the empty table yields zero effective
overrides — every flattened key lookup misses — and every access through the
root behaves as on the real API: methods under `tabs`/`windows` are the real
methods, and any other top-level read (string or symbol) is the real
value. -/
theorem C9_empty_registration_full_delegation
    (chrome : JSValue) (key : String) (ns m p : String) (sid : Nat)
    (hns : ns = "tabs" ∨ ns = "windows")
    (hp : p ≠ "tabs" ∧ p ≠ "windows") :
    findOverride [] key = .undefined
    ∧ accessChain chrome (getChromeProxy (setChromeProxy [])) [.str ns, .str m]
      = .real (getField (getField chrome (.str ns)) (.str m))
    ∧ accessChain chrome (getChromeProxy (setChromeProxy [])) [.str p]
      = .real (getField chrome (.str p))
    ∧ accessChain chrome (getChromeProxy (setChromeProxy [])) [.sym sid]
      = .real (getField chrome (.sym sid)) := by
  have hcond : ¬(p = "tabs" ∨ p = "windows") := by
    rintro (h | h)
    exacts [hp.1 h, hp.2 h]
  refine ⟨rfl, ?_, ?_, rfl⟩
  · show pGet chrome (pGet chrome (.rootProxy []) (.str ns)) (.str m)
        = .real (getField (getField chrome (.str ns)) (.str m))
    rw [rootProxy_namespace chrome [] ns hns, nsProxy_miss chrome [] ns m rfl]
  · show (if p = "tabs" ∨ p = "windows" then PValue.nsProxy [] p
          else .real (getField chrome (.str p))) = .real (getField chrome (.str p))
    rw [if_neg hcond]

/-- Witness for C9: with the empty table, `root.tabs.get` is the real
callable `1` and `root.runtime` is the real runtime object. -/
theorem C9_empty_registration_full_delegation_witness :
    findOverride [] "tabs_get" = .undefined
    ∧ accessChain testChrome (getChromeProxy (setChromeProxy []))
        [.str "tabs", .str "get"]
      = .real (getField (getField testChrome (.str "tabs")) (.str "get"))
    ∧ accessChain testChrome (getChromeProxy (setChromeProxy [])) [.str "runtime"]
      = .real (getField testChrome (.str "runtime"))
    ∧ accessChain testChrome (getChromeProxy (setChromeProxy [])) [.sym 3]
      = .real (getField testChrome (.sym 3)) :=
  C9_empty_registration_full_delegation testChrome "tabs_get" "tabs" "get"
    "runtime" 3 (Or.inl rfl) ⟨by decide, by decide⟩

/-- Claim C10 (confirmed): the nested handler tests the registered value for
truthiness, not key presence — when the flattened key `ns_m` is bound to a
falsy value in the table, the access `root.ns.m` returns the real API method
instead of the registered value. -/
theorem C10_falsy_override_treated_as_absent
    (chrome : JSValue) (t : OverrideTable) (ns m : String) (v : JSValue)
    (hns : ns = "tabs" ∨ ns = "windows")
    (hv : findOverride t (ns ++ "_" ++ m) = v)
    (hfalsy : truthy v = false) :
    accessChain chrome (getChromeProxy (setChromeProxy t)) [.str ns, .str m]
      = .real (getField (getField chrome (.str ns)) (.str m)) := by
  show pGet chrome (pGet chrome (.rootProxy t) (.str ns)) (.str m)
      = .real (getField (getField chrome (.str ns)) (.str m))
  have hmiss : truthy (findOverride t (ns ++ "_" ++ m)) = false := by
    rw [hv]; exact hfalsy
  rw [rootProxy_namespace chrome t ns hns, nsProxy_miss chrome t ns m hmiss]

/-- Witness for C10: `{ windows_create: null }` maps the matching key to a
falsy value, and `root.windows.create` is the real callable `3`. -/
theorem C10_falsy_override_treated_as_absent_witness :
    accessChain testChrome (getChromeProxy (setChromeProxy [("windows_create", .nullv)]))
      [.str "windows", .str "create"]
      = .real (getField (getField testChrome (.str "windows")) (.str "create")) :=
  C10_falsy_override_treated_as_absent testChrome [("windows_create", .nullv)]
    "windows" "create" .nullv (Or.inr rfl) rfl rfl
